import Mathlib

/-!
Shallow embedding of the PyScrAI Universalis core
(memory scopes, LanceDB memory bank, DuckDB state manager,
simulation engine, spatial feasibility constraint),
with theorems settling the specification claims.

Conventions of the embedding:
* Python strings are Lean `String`; Python `None`-able strings are `Option String`.
* Numeric columns (`movement_cost`, `importance`, coordinates) are `ℚ`
  (exact values of the decimal literals the code manipulates).
* Wall-clock timestamps are abstracted as `Nat` (a monotone clock supplied
  by the caller, standing for `datetime.now()`).
* The MD5 content hash of `lancedb_memory._compute_hash` is modelled as the
  hashed content string itself (an injective stand-in for the digest).
* Geometry (the DuckDB spatial extension) is abstracted: a terrain row
  carries its point-containment and segment-intersection predicates
  (`ST_Contains`, `ST_Intersects` applied to its stored polygon).
-/

/- ===================================================================
   Python-side primitives
   =================================================================== -/

/-- Characters Python's `str.strip()` / the regex class `\s` treat as space. -/
def pySpace (c : Char) : Bool :=
  c = ' ' || c = '\t' || c = '\n' || c = '\r' || c = '\x0b' || c = '\x0c'

/-- Drop leading and trailing whitespace of a char list (Python `str.strip()`). -/
def stripChars (l : List Char) : List Char :=
  ((l.dropWhile pySpace).reverse.dropWhile pySpace).reverse

/-- Embeds `text.replace('\n', ' ').strip()` from `LanceDBMemoryBank.add`. -/
def cleanText (t : String) : String :=
  String.mk (stripChars (t.data.map (fun c => if c = '\n' then ' ' else c)))

/-- Truthiness of a Python `Optional[str]` (`None` and `""` are falsy). -/
def truthyOptStr : Option String → Bool
  | none => false
  | some s => s ≠ ""

/-- Truthiness of a Python `Optional[float]` (`None` and `0.0` are falsy). -/
def truthyOptQ : Option ℚ → Bool
  | none => false
  | some v => v ≠ 0

/-- Embeds `pat` occurs as a contiguous run at the head of `l`. -/
def listStartsWith : List Char → List Char → Bool
  | _, [] => true
  | [], _ :: _ => false
  | a :: as, b :: bs => a = b && listStartsWith as bs

/-- Python's `pat in s` on strings: contiguous-subsequence containment. -/
def listContainsSeq (hay pat : List Char) : Bool :=
  match hay with
  | [] => pat.isEmpty
  | _ :: t => listStartsWith hay pat || listContainsSeq t pat

/-- A raised Python exception, as far as the embedding needs it. -/
inductive PyErr where
  | attributeError (name : String)
  deriving Repr, DecidableEq

/- ===================================================================
   memory/scopes.py
   =================================================================== -/

/-- Embeds `MemoryScope` enum (`scopes.py`). -/
inductive MemoryScope where
  | PUBLIC
  | PRIVATE
  | SHARED_GROUP
  deriving Repr, DecidableEq

/-- Embeds `MemoryScope.value` (the lowercase string member values). -/
def MemoryScope.value : MemoryScope → String
  | .PUBLIC => "public"
  | .PRIVATE => "private"
  | .SHARED_GROUP => "shared_group"

/-- Embeds `MemoryMetadata` dataclass (`scopes.py`). -/
structure MemoryMetadata where
  scope : MemoryScope
  owner_id : Option String
  group_id : Option String
  cycle : Int
  importance : ℚ
  tags : List String
  deriving Repr, DecidableEq

/-- Embeds `ScopeFilter.__init__` stores exactly `agent_id`, `groups`, `include_public`. -/
structure ScopeFilter where
  agent_id : String
  groups : List String
  include_public : Bool
  deriving Repr, DecidableEq

/-- Embeds `ScopeFilter.can_access` (`scopes.py`, lines 95-120). -/
def ScopeFilter.can_access (f : ScopeFilter) (m : MemoryMetadata) : Bool :=
  if m.scope = .PUBLIC && f.include_public then true
  else if m.scope = .PRIVATE then m.owner_id = some f.agent_id
  else if m.scope = .SHARED_GROUP then
    if truthyOptStr m.group_id && (m.group_id.map f.groups.contains).getD false then true
    else m.owner_id = some f.agent_id
  else false

/-- A row of the LanceDB memory table (the Arrow schema of `_init_table`).
The embedding vector is kept as the list of floats the embedder returned. -/
structure MemoryRow where
  id : String
  text : String
  vector : List ℚ
  scope : String
  owner_id : String
  group_id : String
  cycle : Int
  importance : ℚ
  tags : String
  timestamp : Nat
  simulation_id : String
  deriving Repr, DecidableEq

/-- The list of SQL disjuncts assembled by `ScopeFilter.build_lancedb_filter`
(`scopes.py`, lines 166-200), each read as the row predicate the SQL
condition denotes.  Note the comparisons are against the uppercase literals
`'PUBLIC'`, `'PRIVATE'`, `'SHARED_GROUP'` exactly as in the source. -/
def ScopeFilter.lancedb_conditions (f : ScopeFilter) : List (MemoryRow → Bool) :=
  (if f.include_public then [fun r => r.scope == "PUBLIC"] else []) ++
  [fun r => r.scope == "PRIVATE" && r.owner_id == f.agent_id] ++
  (if !f.groups.isEmpty then
     [fun r => r.scope == "SHARED_GROUP" && f.groups.contains r.group_id]
   else []) ++
  [fun r => r.scope == "SHARED_GROUP" && r.owner_id == f.agent_id]

/-- Whether the WHERE expression of `build_lancedb_filter` admits a row
(the OR of the assembled conditions). -/
def ScopeFilter.lancedb_filter_accepts (f : ScopeFilter) (r : MemoryRow) : Bool :=
  (f.lancedb_conditions).any (fun c => c r)

/- ===================================================================
   memory/lancedb_memory.py — LanceDBMemoryBank
   =================================================================== -/

/-- In-memory model of a `LanceDBMemoryBank`: the LanceDB table rows plus the
`_stored_hashes` duplicate-detection set (a duplicate-free list), and the
configured embedding function. -/
structure MemoryBank where
  simulation_id : String
  table_name : String
  rows : List MemoryRow
  stored_hashes : List String
  embed : String → List ℚ

/-- Embeds `_compute_hash(text, owner_id, scope)`: MD5 of
`f"{text}:{owner_id or ''}:{scope.value}"`, modelled by the content string. -/
def compute_hash (text : String) (owner_id : Option String) (scope : MemoryScope) : String :=
  text ++ ":" ++ owner_id.getD "" ++ ":" ++ scope.value

/-- Embeds `LanceDBMemoryBank.add` (lines 156-218).  `now` stands for
`datetime.now()`.  Returns the boolean result and the updated bank. -/
def MemoryBank.add (b : MemoryBank) (text : String) (scope : MemoryScope)
    (owner_id group_id : Option String) (cycle : Int) (importance : ℚ)
    (tags : List String) (now : Nat) : Bool × MemoryBank :=
  let text := cleanText text
  if text = "" then (false, b)
  else
    let content_hash := compute_hash text owner_id scope
    if b.stored_hashes.contains content_hash then (false, b)
    else
      let embedding := b.embed text
      let memory_id := b.simulation_id ++ "_" ++ content_hash
      let row : MemoryRow :=
        { id := memory_id
          text := text
          vector := embedding
          scope := scope.value
          owner_id := owner_id.getD ""
          group_id := group_id.getD ""
          cycle := cycle
          importance := importance
          tags := String.intercalate "," tags
          timestamp := now
          simulation_id := b.simulation_id }
      (true, { b with rows := b.rows ++ [row],
                      stored_hashes := b.stored_hashes ++ [content_hash] })

/-- Embeds `LanceDBMemoryBank.extend` (lines 220-243): batched `add`, counting
successes.  All adds of one batch share the remaining keyword arguments. -/
def MemoryBank.extend (b : MemoryBank) (texts : List String) (scope : MemoryScope)
    (owner_id group_id : Option String) (cycle : Int) (importance : ℚ)
    (tags : List String) (now : Nat) : Nat × MemoryBank :=
  texts.foldl
    (fun (acc : Nat × MemoryBank) t =>
      let r := acc.2.add t scope owner_id group_id cycle importance tags now
      (if r.1 then acc.1 + 1 else acc.1, r.2))
    (0, b)

/-- Embeds `__len__`: `len(self._stored_hashes)`. -/
def MemoryBank.count (b : MemoryBank) : Nat := b.stored_hashes.length

/-- The checkpoint dictionary of `get_state` (lines 403-416). -/
structure BankState where
  simulation_id : String
  table_name : String
  stored_hashes : List String
  memory_count : Nat
  deriving Repr, DecidableEq

/-- Embeds `LanceDBMemoryBank.get_state`. -/
def MemoryBank.get_state (b : MemoryBank) : BankState :=
  { simulation_id := b.simulation_id
    table_name := b.table_name
    stored_hashes := b.stored_hashes
    memory_count := b.stored_hashes.length }

/-- Embeds `LanceDBMemoryBank.set_state` (lines 418-426): restores only the stored
hash set (`set(...)` deduplicates); the table rows are untouched. -/
def MemoryBank.set_state (b : MemoryBank) (st : BankState) : MemoryBank :=
  { b with stored_hashes := st.stored_hashes.dedup }

/-- Embeds `LanceDBMemoryBank.clear` (lines 460-470): drop and recreate the table,
clear the hash set. -/
def MemoryBank.clear (b : MemoryBank) : MemoryBank :=
  { b with rows := [], stored_hashes := [] }

/-- Values a Python attribute of a `ScopeFilter` instance can hold. -/
inductive ScopeAttrVal where
  | str (s : String)
  | strs (l : List String)
  | boolean (b : Bool)
  deriving Repr, DecidableEq

/-- The instance attribute dictionary a `ScopeFilter` object carries:
`__init__` sets exactly `agent_id`, `groups` and `include_public`. -/
def ScopeFilter.attrs (f : ScopeFilter) : List (String × ScopeAttrVal) :=
  [("agent_id", .str f.agent_id),
   ("groups", .strs f.groups),
   ("include_public", .boolean f.include_public)]

/-- Python attribute lookup on a `ScopeFilter`; a missing attribute raises
`AttributeError`. -/
def ScopeFilter.getattr (f : ScopeFilter) (name : String) :
    Except PyErr ScopeAttrVal :=
  match (f.attrs).lookup name with
  | some v => .ok v
  | none => .error (.attributeError name)

/-- Truthiness of an attribute value. -/
def ScopeAttrVal.truthy : ScopeAttrVal → Bool
  | .str s => s ≠ ""
  | .strs l => !l.isEmpty
  | .boolean b => b

/-- Read an attribute value as a string (as the pandas mask does). -/
def ScopeAttrVal.asStr : ScopeAttrVal → String
  | .str s => s
  | _ => ""

/-- Read an attribute value as a list of strings. -/
def ScopeAttrVal.asStrs : ScopeAttrVal → List String
  | .strs l => l
  | _ => []

/-- Embeds `LanceDBMemoryBank._apply_pandas_filter` (lines 340-358).  The code reads
`scope_filter.requesting_agent_id` and `scope_filter.agent_groups`; the
attribute lookup is modelled explicitly because `ScopeFilter` defines
neither attribute. -/
def apply_pandas_filter (simulation_id : String) (df : List MemoryRow)
    (scope_filter : ScopeFilter) : Except PyErr (List MemoryRow) := do
  let df := df.filter (fun r => r.simulation_id == simulation_id)
  let ra ← scope_filter.getattr "requesting_agent_id"
  if ra.truthy then
    let agent_id := ra.asStr
    let ga ← scope_filter.getattr "agent_groups"
    let groups := if ga.truthy then ga.asStrs else []
    pure (df.filter (fun r =>
      (r.scope == "PUBLIC") ||
      ((r.scope == "PRIVATE") && (r.owner_id == agent_id)) ||
      ((r.scope == "SHARED_GROUP") && groups.contains r.group_id)))
  else
    pure (df.filter (fun r => r.scope == "PUBLIC"))

/-- Stable insertion into a timestamp-descending list (models
`df.sort_values('timestamp', ascending=False)`). -/
def insertTsDesc (r : MemoryRow) : List MemoryRow → List MemoryRow
  | [] => [r]
  | x :: xs => if x.timestamp ≥ r.timestamp then x :: insertTsDesc r xs else r :: x :: xs

/-- Sort rows by timestamp, newest first. -/
def sortTsDesc (l : List MemoryRow) : List MemoryRow :=
  l.foldr insertTsDesc []

/-- Embeds `LanceDBMemoryBank.retrieve_recent` (lines 303-338). -/
def MemoryBank.retrieve_recent (b : MemoryBank) (k : Int)
    (scope_filter : Option ScopeFilter) : Except PyErr (List String) := do
  if k ≤ 0 then return []
  let df := b.rows
  if df.isEmpty then return []
  let df ← match scope_filter with
    | some f => apply_pandas_filter b.simulation_id df f
    | none => pure df
  let df := sortTsDesc df
  return (df.map (fun r => r.text)).take k.toNat

/-- Embeds `LanceDBMemoryBank.scan` (lines 360-389). -/
def MemoryBank.scan (b : MemoryBank) (selector_fn : String → Bool)
    (scope_filter : Option ScopeFilter) : Except PyErr (List String) := do
  let df := b.rows
  if df.isEmpty then return []
  let df ← match scope_filter with
    | some f => apply_pandas_filter b.simulation_id df f
    | none => pure df
  return (df.map (fun r => r.text)).filter selector_fn

/-- Embeds `LanceDBMemoryBank.get_all_memories_as_text` (lines 428-453). -/
def MemoryBank.get_all_memories_as_text (b : MemoryBank)
    (scope_filter : Option ScopeFilter) : Except PyErr (List String) := do
  let df := b.rows
  if df.isEmpty then return []
  let df ← match scope_filter with
    | some f => apply_pandas_filter b.simulation_id df f
    | none => pure df
  return df.map (fun r => r.text)

/-- Embeds `LanceDBMemoryBank.retrieve_associative` (lines 245-282).  `search_order`
abstracts `self._table.search(query_embedding)`: the table rows ranked by
vector similarity to the query.  The WHERE filter and `limit(k * 2)` are
then applied, and the top `k` texts returned. -/
def MemoryBank.retrieve_associative (b : MemoryBank) (query : String) (k : Int)
    (scope_filter : Option ScopeFilter) (search_order : List MemoryRow) :
    List String :=
  if k ≤ 0 then []
  else
    let _query_embedding := b.embed query
    let searched :=
      match scope_filter with
      | some f => search_order.filter f.lancedb_filter_accepts
      | none => search_order
    let results := searched.take (2 * k).toNat
    (results.take k.toNat).map (fun r => r.text)

/- ===================================================================
   data/schemas/models.py — pydantic models
   =================================================================== -/

/-- Embeds `Location` (models.py). -/
structure Location where
  lat : ℚ
  lon : ℚ
  elevation : Option ℚ
  deriving Repr, DecidableEq

/-- Embeds `Environment` (models.py). -/
structure Environment where
  cycle : Int
  time : String
  weather : String
  global_events : List String
  terrain_modifiers : List (String × ℚ)
  deriving Repr, DecidableEq

/-- Embeds `Actor` (models.py).  The resolution enum is kept as its string value. -/
structure Actor where
  actor_id : String
  role : String
  description : String
  resolution : String
  assets : List String
  objectives : List String
  location : Option Location
  attributes : List (String × String)
  status : String
  deriving Repr, DecidableEq

/-- Embeds `Asset` (models.py).  `location` is the `Dict[str, float]` mapping. -/
structure Asset where
  asset_id : String
  name : String
  asset_type : String
  location : List (String × ℚ)
  attributes : List (String × String)
  status : String
  deriving Repr, DecidableEq

/-- Embeds `Asset.get_location_obj`. -/
def Asset.get_location_obj (a : Asset) : Option Location :=
  if !a.location.isEmpty ∧ (a.location.lookup "lat").isSome ∧
      (a.location.lookup "lon").isSome then
    some { lat := ((a.location.lookup "lat").getD 0)
           lon := ((a.location.lookup "lon").getD 0)
           elevation := a.location.lookup "elevation" }
  else none

/-- Embeds `WorldState` (models.py).  Actor and asset maps are association lists;
`last_updated` is the abstract clock value. -/
structure WorldState where
  simulation_id : String
  environment : Environment
  actors : List (String × Actor)
  assets : List (String × Asset)
  last_updated : Nat
  metadata : List (String × String)
  deriving Repr, DecidableEq

/- ===================================================================
   state/duckdb_manager.py — tables
   =================================================================== -/

/-- A row of `world_state_snapshots`.  `state_json` is modelled by the
deserialized `WorldState` value (pydantic JSON round-trip is faithful). -/
structure SnapshotRow where
  id : String
  simulation_id : String
  cycle : Int
  state : WorldState
  deriving Repr, DecidableEq

/-- A row of `environment`. -/
structure EnvRow where
  id : String
  simulation_id : String
  cycle : Int
  time_of_day : String
  weather : String
  global_events : List String
  terrain_modifiers : List (String × ℚ)
  deriving Repr, DecidableEq

/-- The JSON `properties` column of `entities`, as written by
`save_world_state` (a dictionary with the listed optional keys). -/
structure EntityProps where
  role : Option String
  resolution : Option String
  assets : Option (List String)
  objectives : Option (List String)
  attributes : Option (List (String × String))
  asset_type : Option String
  deriving Repr, DecidableEq

/-- A row of `entities`.  `geometry` is the stored point as `(lon, lat)`,
`none` when the row was inserted without geometry. -/
structure EntityRow where
  id : String
  simulation_id : String
  entity_type : String
  name : String
  description : String
  geometry : Option (ℚ × ℚ)
  properties : EntityProps
  status : String
  deriving Repr, DecidableEq

/-- A point `(lon, lat)`. -/
abbrev GeoPoint := ℚ × ℚ

/-- A row of `terrain`.  The stored polygon is abstracted by its two spatial
predicates: `containsPt p` is `ST_Contains(geometry, ST_Point(p))` and
`intersectsSeg a b` is `ST_Intersects(geometry, ST_MakeLine(a, b))`. -/
structure TerrainRow where
  id : String
  simulation_id : String
  name : String
  terrain_type : String
  containsPt : GeoPoint → Bool
  intersectsSeg : GeoPoint → GeoPoint → Bool
  movement_cost : ℚ
  passable : Bool

/-- The DuckDB database of one state manager. -/
structure StateDB where
  snapshots : List SnapshotRow
  envRows : List EnvRow
  entities : List EntityRow
  terrain : List TerrainRow

/-- The empty database (freshly initialized schema). -/
def emptyStateDB : StateDB := ⟨[], [], [], []⟩

/-- Embeds `INSERT OR REPLACE` keyed by `id`: replace the first row with the same
primary key, else append. -/
def upsertById {α : Type} (getId : α → String) (new : α) : List α → List α
  | [] => [new]
  | r :: rs => if getId r = getId new then new :: rs else r :: upsertById getId new rs

/- ===================================================================
   state/duckdb_manager.py — operations
   =================================================================== -/

/-- The snapshot primary key `f"{simulation_id}_cycle_{cycle}"`. -/
def snapshotKey (simulation_id : String) (cycle : Int) : String :=
  simulation_id ++ "_cycle_" ++ toString cycle

/-- Embeds `DuckDBStateManager._upsert_entity` (lines 357-397). -/
def upsert_entity (simulation_id : String) (db : StateDB) (entity_id : String)
    (entity_type : String) (name : String) (description : String)
    (location : Option Location) (properties : EntityProps) (status : String) :
    StateDB :=
  let geometry : Option (ℚ × ℚ) :=
    match location with
    | some loc => some (loc.lon, loc.lat)
    | none => none
  let row : EntityRow :=
    { id := entity_id, simulation_id := simulation_id, entity_type := entity_type,
      name := name, description := description, geometry := geometry,
      properties := properties, status := status }
  { db with entities := upsertById (fun r => r.id) row db.entities }

/-- The actor loop of `save_world_state` (lines 321-337): one entity upsert
per actor. -/
def save_actor_entities (simulation_id : String) (db : StateDB)
    (actors : List (String × Actor)) : StateDB :=
  actors.foldl
    (fun db p =>
      let actor := p.2
      upsert_entity simulation_id db p.1 "actor" actor.role actor.description
        actor.location
        { role := some actor.role, resolution := some actor.resolution,
          assets := some actor.assets, objectives := some actor.objectives,
          attributes := some actor.attributes, asset_type := none }
        actor.status)
    db

/-- The asset loop of `save_world_state` (lines 339-353): one entity upsert
per asset. -/
def save_asset_entities (simulation_id : String) (db : StateDB)
    (assets : List (String × Asset)) : StateDB :=
  assets.foldl
    (fun db p =>
      let asset := p.2
      upsert_entity simulation_id db p.1 "asset" asset.name ""
        asset.get_location_obj
        { role := none, resolution := none, assets := none, objectives := none,
          attributes := some asset.attributes, asset_type := some asset.asset_type }
        asset.status)
    db

/-- Embeds `DuckDBStateManager.save_world_state` (lines 285-355): snapshot upsert,
environment upsert, one entity upsert per actor and per asset. -/
def save_world_state (simulation_id : String) (db : StateDB) (ws : WorldState) :
    StateDB :=
  let cycle := ws.environment.cycle
  let snapshot : SnapshotRow :=
    { id := snapshotKey simulation_id cycle, simulation_id := simulation_id,
      cycle := cycle, state := ws }
  let db := { db with snapshots := upsertById (fun r => r.id) snapshot db.snapshots }
  let envRow : EnvRow :=
    { id := simulation_id ++ "_env", simulation_id := simulation_id,
      cycle := cycle, time_of_day := ws.environment.time,
      weather := ws.environment.weather,
      global_events := ws.environment.global_events,
      terrain_modifiers := ws.environment.terrain_modifiers }
  let db := { db with envRows := upsertById (fun r => r.id) envRow db.envRows }
  save_asset_entities simulation_id
    (save_actor_entities simulation_id db ws.actors) ws.assets

/-- Python dict insertion `d[k] = v` on an association list. -/
def dictInsert {α : Type} (k : String) (v : α) : List (String × α) → List (String × α)
  | [] => [(k, v)]
  | p :: ps => if p.1 = k then (k, v) :: ps else p :: dictInsert k v ps

/-- The `lon`/`lat` columns `ST_X(geometry)`, `ST_Y(geometry)` of an entity
row (`NULL` when the geometry is missing). -/
def entityLonLat (r : EntityRow) : Option ℚ × Option ℚ :=
  match r.geometry with
  | some (lon, lat) => (some lon, some lat)
  | none => (none, none)

/-- The `Actor` built from an entity row by `_reconstruct_world_state`
(lines 237-252).  `location` is set only when both coordinates are truthy. -/
def actorFromRow (r : EntityRow) : Actor :=
  let (lon, lat) := entityLonLat r
  { actor_id := r.id
    role := (r.properties.role).getD r.name
    description := r.description
    resolution := (r.properties.resolution).getD "macro"
    assets := (r.properties.assets).getD []
    objectives := (r.properties.objectives).getD []
    location :=
      if truthyOptQ lat && truthyOptQ lon then
        some { lat := lat.getD 0, lon := lon.getD 0, elevation := none }
      else none
    attributes := (r.properties.attributes).getD []
    status := r.status }

/-- The `Asset` built from an entity row by `_reconstruct_world_state`
(lines 264-276). -/
def assetFromRow (r : EntityRow) : Asset :=
  let (lon, lat) := entityLonLat r
  { asset_id := r.id
    name := r.name
    asset_type := (r.properties.asset_type).getD "Unknown"
    location :=
      if truthyOptQ lat && truthyOptQ lon then
        [("lat", lat.getD 0), ("lon", lon.getD 0)]
      else []
    attributes := (r.properties.attributes).getD []
    status := r.status }

/-- The environment row the reconstruction query selects: highest cycle
among this simulation's rows (`ORDER BY cycle DESC LIMIT 1`). -/
def latestEnvRow (simulation_id : String) (db : StateDB) : Option EnvRow :=
  let rows := db.envRows.filter (fun r => r.simulation_id == simulation_id)
  rows.foldl
    (fun best r =>
      match best with
      | none => some r
      | some b => if r.cycle > b.cycle then some r else best)
    none

/-- Embeds `DuckDBStateManager._reconstruct_world_state` (lines 203-283).  `now`
stands for the `datetime.now()` default of `WorldState.last_updated`. -/
def reconstruct_world_state (simulation_id : String) (db : StateDB) (now : Nat) :
    Option WorldState :=
  match latestEnvRow simulation_id db with
  | none => none
  | some env_result =>
    let environment : Environment :=
      { cycle := env_result.cycle, time := env_result.time_of_day,
        weather := env_result.weather,
        global_events := env_result.global_events,
        terrain_modifiers := env_result.terrain_modifiers }
    let actor_results := db.entities.filter
      (fun r => r.simulation_id == simulation_id && r.entity_type == "actor" &&
        r.status != "deleted")
    let actors := actor_results.foldl
      (fun d r => dictInsert r.id (actorFromRow r) d) []
    let asset_results := db.entities.filter
      (fun r => r.simulation_id == simulation_id && r.entity_type == "asset" &&
        r.status != "deleted")
    let assets := asset_results.foldl
      (fun d r => dictInsert r.id (assetFromRow r) d) []
    some { simulation_id := simulation_id, environment := environment,
           actors := actors, assets := assets, last_updated := now,
           metadata := [] }

/-- The snapshot row the latest-snapshot query selects
(`ORDER BY cycle DESC LIMIT 1`). -/
def latestSnapshotRow (simulation_id : String) (db : StateDB) : Option SnapshotRow :=
  let rows := db.snapshots.filter (fun r => r.simulation_id == simulation_id)
  rows.foldl
    (fun best r =>
      match best with
      | none => some r
      | some b => if r.cycle > b.cycle then some r else best)
    none

/-- Embeds `DuckDBStateManager.get_world_state` (lines 171-201): snapshot lookup
(by cycle, or latest), falling back to reconstruction. -/
def get_world_state (simulation_id : String) (db : StateDB) (cycle : Option Int)
    (now : Nat) : Option WorldState :=
  let result : Option SnapshotRow :=
    match cycle with
    | some c =>
      (db.snapshots.filter
        (fun r => r.simulation_id == simulation_id && r.cycle == c)).head?
    | none => latestSnapshotRow simulation_id db
  match result with
  | some row => some row.state
  | none => reconstruct_world_state simulation_id db now

/-- Embeds `DuckDBStateManager.get_current_cycle` (lines 399-405):
`MAX(cycle)` over this simulation's environment rows, `0` if none. -/
def get_current_cycle (simulation_id : String) (db : StateDB) : Int :=
  let cycles := (db.envRows.filter
    (fun r => r.simulation_id == simulation_id)).map (fun r => r.cycle)
  match cycles.max? with
  | some m => m
  | none => 0

/-- Embeds `SELECT MAX(movement_cost)` over a list of costs (`NULL` on empty). -/
def sqlMax : List ℚ → Option ℚ
  | [] => none
  | x :: xs => some (xs.foldl max x)

/-- The `movement_cost` values of this simulation's terrain rows whose
polygon intersects the segment from `a` to `b`. -/
def segmentCosts (simulation_id : String) (db : StateDB) (a b : GeoPoint) : List ℚ :=
  (db.terrain.filter
    (fun t => t.simulation_id == simulation_id && t.intersectsSeg a b)).map
    (fun t => t.movement_cost)

/-- Embeds `DuckDBStateManager.calculate_path_cost` (lines 539-566):
`COALESCE(MAX(movement_cost), 1.0)` over the intersected terrain rows. -/
def calculate_path_cost (simulation_id : String) (db : StateDB) (a b : GeoPoint) : ℚ :=
  match sqlMax (segmentCosts simulation_id db a b) with
  | some m => m
  | none => 1

/-- Embeds `DuckDBStateManager.get_terrain_at_point` (lines 472-504): the first
terrain row of this simulation containing the point (`LIMIT 1`, table order). -/
def get_terrain_at_point (simulation_id : String) (db : StateDB) (lon lat : ℚ) :
    Option TerrainRow :=
  (db.terrain.filter
    (fun t => t.simulation_id == simulation_id && t.containsPt (lon, lat))).head?

/- ===================================================================
   archon/spatial_constraints.py — SpatialConstraintChecker
   =================================================================== -/

/-- Embeds `SpatialConstraintResult` (the fields the feasibility path reads). -/
structure SpatialConstraintResult where
  passed : Bool
  constraint_type : String
  message : String
  deriving Repr, DecidableEq

/-- Embeds `SpatialConstraintChecker.check_terrain_passability` (lines 105-145):
no containing terrain means passable by default, otherwise the found
terrain's `passable` flag decides. -/
def check_terrain_passability (simulation_id : String) (db : StateDB)
    (lon lat : ℚ) : SpatialConstraintResult :=
  match get_terrain_at_point simulation_id db lon lat with
  | none =>
    { passed := true, constraint_type := "terrain",
      message := "No terrain restrictions at this location" }
  | some terrain =>
    { passed := terrain.passable, constraint_type := "terrain",
      message := "Terrain " ++ terrain.name ++ " (" ++ terrain.terrain_type ++
        ") is " ++ (if terrain.passable then "passable" else "impassable") }

/- ===================================================================
   archon/feasibility.py — _check_spatial_movement
   =================================================================== -/

/-- The movement keywords of `_check_spatial_movement`. -/
def movement_keywords : List String :=
  ["move", "go", "travel", "deploy", "relocate", "dispatch", "send"]

/-- Embeds `any(kw in intent.lower() for kw in movement_keywords)`. -/
def hasMovementKeyword (intent : String) : Bool :=
  movement_keywords.any
    (fun kw => listContainsSeq (intent.data.map Char.toLower) kw.data)

/-- Characters of the regex class `[,\s]`. -/
def coordSep (c : Char) : Bool := c = ',' || pySpace c

/-- Longest digit run at the head of the input (`\d+` / `\d*`). -/
def takeDigits (s : List Char) : List Char × List Char :=
  (s.takeWhile Char.isDigit, s.dropWhile Char.isDigit)

/-- Greedy match of one number token `-?\d+\.?\d*` at the head of the
input; returns the matched characters and the rest. -/
def matchNum (s : List Char) : Option (List Char × List Char) :=
  let (sign, s1) : List Char × List Char :=
    match s with
    | '-' :: t => (['-'], t)
    | _ => ([], s)
  let (d1, s2) := takeDigits s1
  if d1.isEmpty then none
  else
    match s2 with
    | '.' :: s3 =>
      let (d2, s4) := takeDigits s3
      some (sign ++ d1 ++ ['.'] ++ d2, s4)
    | _ => some (sign ++ d1, s2)

/-- Greedy match of one separator run `[,\s]+` at the head of the input. -/
def matchSep (s : List Char) : Option (List Char × List Char) :=
  let run := s.takeWhile coordSep
  if run.isEmpty then none else some (run, s.dropWhile coordSep)

/-- Match of the full coordinate-pair pattern
`-?\d+\.?\d*[,\s]+-?\d+\.?\d*` at the head of the input.  For this pattern
the greedy left-to-right match coincides with backtracking regex semantics:
no digit, dot or sign given back by a sub-match can start the next piece. -/
def matchPairAt (s : List Char) : Option (List Char × List Char) := do
  let (n1, r1) ← matchNum s
  let (sep, r2) ← matchSep r1
  let (n2, r3) ← matchNum r2
  return (n1 ++ sep ++ n2, r3)

/-- Embeds `re.findall(coord_pattern, intent)`: non-overlapping leftmost matches,
resuming after each match, advancing one character on failure.  The fuel is
the input length (every match consumes at least one character). -/
def findallPairsAux : Nat → List Char → List (List Char)
  | 0, _ => []
  | _, [] => []
  | Nat.succ fuel, s =>
    match matchPairAt s with
    | some (m, rest) => m :: findallPairsAux fuel rest
    | none => findallPairsAux fuel s.tail

/-- All matches of the coordinate regex in the intent string. -/
def findallPairs (intent : String) : List (List Char) :=
  findallPairsAux intent.data.length intent.data

/-- Embeds `re.split(r'[,\s]+', s)`: split on maximal separator runs. -/
def splitSepsAux : Nat → List Char → List Char → List (List Char)
  | _, acc, [] => [acc.reverse]
  | 0, acc, _ => [acc.reverse]
  | Nat.succ fuel, acc, c :: t =>
    if coordSep c then acc.reverse :: splitSepsAux fuel [] (t.dropWhile coordSep)
    else splitSepsAux fuel (c :: acc) t

/-- Split a char list on runs of `[,\s]`. -/
def splitSeps (s : List Char) : List (List Char) :=
  splitSepsAux s.length [] s

/-- Embeds `float(p)` on the digit strings the coordinate regex produces:
optional sign, integer digits, optional dot and fraction digits; `none`
models `ValueError`. -/
def parseFloatQ (s : List Char) : Option ℚ :=
  let (neg, s1) : Bool × List Char :=
    match s with
    | '-' :: t => (true, t)
    | _ => (false, s)
  let (d1, s2) := takeDigits s1
  let (d2, s3) : List Char × List Char :=
    match s2 with
    | '.' :: t => takeDigits t
    | _ => ([], s2)
  let rest : List Char :=
    match s2 with
    | '.' :: t => t.dropWhile Char.isDigit
    | _ => s2
  if !s3.isEmpty ∨ !rest.isEmpty ∨ (d1.isEmpty ∧ d2.isEmpty) then none
  else
    let digitVal (l : List Char) : Nat := l.foldl (fun n c => 10 * n + c.toNat - 48) 0
    let den : Nat := 10 ^ d2.length
    let mag : ℚ := mkRat (digitVal d1 * den + digitVal d2 : Nat) den
    some (if neg then -mag else mag)

/-- The `(lat, lon)` pair one regex match contributes: strip, split on
separators, parse the first two parts as floats (`ValueError` skips). -/
def pairLatLon (m : List Char) : Option (ℚ × ℚ) :=
  match splitSeps (stripChars m) with
  | p1 :: p2 :: _ =>
    match parseFloatQ p1, parseFloatQ p2 with
    | some lat, some lon => some (lat, lon)
    | _, _ => none
  | _ => none

/-- All coordinate pairs `_check_spatial_movement` extracts from an intent. -/
def extractedPairs (intent : String) : List (ℚ × ℚ) :=
  (findallPairs intent).filterMap pairLatLon

/-- The per-match loop of `_check_spatial_movement` (lines 263-278):
check passability of each parsed pair, returning `false` on the first
impassable point. -/
def checkCoordMatches (simulation_id : String) (db : StateDB) :
    List (List Char) → Bool
  | [] => true
  | m :: ms =>
    match pairLatLon m with
    | some (lat, lon) =>
      if (check_terrain_passability simulation_id db lon lat).passed then
        checkCoordMatches simulation_id db ms
      else false
    | none => checkCoordMatches simulation_id db ms

/-- Embeds `FeasibilityEngine._check_spatial_movement` (lines 233-281). -/
def check_spatial_movement (simulation_id : String) (db : StateDB)
    (intent : String) : Bool :=
  let has_movement := hasMovementKeyword intent
  if !has_movement then true
  else
    let found := findallPairs intent
    if found.isEmpty then true
    else checkCoordMatches simulation_id db found

/- ===================================================================
   engine.py — SimulationEngine
   =================================================================== -/

/-- The dictionary `Archon.run_cycle` returns, as `async_step` reads it
(`final_output.get("archon_summary", ...)`, `final_output.get("world_state", ...)`). -/
structure ArchonOutput where
  world_state : Option WorldState
  archon_summary : Option String

/-- Per-tick context: the attached archon's `run_cycle` behaviour for this
tick (`Except.error msg` models a raised exception with message `msg`),
the wall clock, and `datetime.now().strftime("%H:%M")`. -/
structure TickCtx where
  run_cycle : Option (WorldState → Except String ArchonOutput)
  now : Nat
  timeStr : String

/-- The engine: `sim_id`, the cycle counter `steps`, and the owned state
store. -/
structure Engine where
  sim_id : String
  steps : Int
  db : StateDB

/-- Embeds `SimulationEngine.__init__` (lines 43-88): the step counter is synced
from `get_current_cycle()`. -/
def Engine.init (sim_id : String) (db : StateDB) : Engine :=
  { sim_id := sim_id, steps := get_current_cycle sim_id db, db := db }

/-- The result dictionary of one `async_step`. -/
structure TickResult where
  cycle : Int
  status : String
  summary : String
  deriving Repr, DecidableEq

/-- The baseline world state of a tick (`async_step` steps 2-3): the latest
snapshot with its cycle stamped to the new step count, or a fresh minimal
`WorldState` when the store is empty. -/
def loadedStamped (e : Engine) (ctx : TickCtx) : WorldState :=
  match get_world_state e.sim_id e.db none ctx.now with
  | some ws => { ws with environment := { ws.environment with cycle := e.steps + 1 } }
  | none =>
    { simulation_id := e.sim_id
      environment :=
        { cycle := e.steps + 1, time := ctx.timeStr, weather := "Clear",
          global_events := [], terrain_modifiers := [] }
      actors := [], assets := [], last_updated := ctx.now, metadata := [] }

/-- The cognitive-bridge stage of a tick (`async_step`, lines 203-222):
the final world state and the archon summary, with the exception fallback
to the loaded baseline. -/
def adjudicated (e : Engine) (ctx : TickCtx) : WorldState × String :=
  let current_world_state := loadedStamped e ctx
  match ctx.run_cycle with
  | some run =>
    match run current_world_state with
    | .ok out =>
      ((out.world_state).getD current_world_state,
       (out.archon_summary).getD "No summary provided")
    | .error msg => (current_world_state, "Adjudication error: " ++ msg)
  | none => (current_world_state, "No adjudication (Archon not attached)")

/-- The snapshot a tick persists: the adjudicated state with `last_updated`
set to now (`save_adjudicated_state`, lines 137-148). -/
def finalSaved (e : Engine) (ctx : TickCtx) : WorldState :=
  { (adjudicated e ctx).1 with last_updated := ctx.now }

/-- Embeds `SimulationEngine.async_step` (lines 163-243) for a tick whose
persistence succeeds: advance the counter, load and stamp the baseline,
invoke the archon (falling back to the baseline on exception, with an
`"Adjudication error: ..."` summary), persist, and return the result
dictionary. -/
def Engine.async_step (e : Engine) (ctx : TickCtx) : Engine × TickResult :=
  ({ sim_id := e.sim_id, steps := e.steps + 1,
     db := save_world_state e.sim_id e.db (finalSaved e ctx) },
   { cycle := e.steps + 1, status := "Adjudicated",
     summary := (adjudicated e ctx).2 })

/-- Run a sequence of ticks, collecting the `environment.cycle` value of
each persisted snapshot in order. -/
def runTicks (e : Engine) : List TickCtx → Engine × List Int
  | [] => (e, [])
  | ctx :: ctxs =>
    let rest := runTicks (e.async_step ctx).1 ctxs
    (rest.1, (finalSaved e ctx).environment.cycle :: rest.2)

/- ===================================================================
   Definitions taken from the specification's words (for comparison
   with the source-derived definitions above)
   =================================================================== -/

/-- Modelled from the spec: "A row is visible iff: scope is PUBLIC and
include_public; or scope is PRIVATE and owner_id = requesting_agent_id; or
scope is SHARED_GROUP and (group_id ∈ agent_groups or owner_id =
requesting_agent_id)." -/
def spec_visible (requesting_agent_id : String) (agent_groups : List String)
    (include_public : Bool) (scope : MemoryScope) (owner_id group_id : Option String) :
    Bool :=
  (scope == .PUBLIC && include_public) ||
  (scope == .PRIVATE && owner_id == some requesting_agent_id) ||
  (scope == .SHARED_GROUP &&
    ((group_id.map agent_groups.contains).getD false ||
     owner_id == some requesting_agent_id))

/-- Modelled from the spec claim: `calculate_path_cost` "returns
max(1.0, c₁, …, cₖ)" over the costs of the intersected polygons. -/
def spec_path_cost (simulation_id : String) (db : StateDB) (a b : GeoPoint) : ℚ :=
  (segmentCosts simulation_id db a b).foldl max 1

/-- Modelled from the spec claim: the spatial_movement constraint fails
iff the intent has a movement verb and some extracted coordinate pair lies
in a terrain polygon whose passable flag is false. -/
def spec_spatial_fails (simulation_id : String) (db : StateDB) (intent : String) :
    Prop :=
  hasMovementKeyword intent = true ∧
  ∃ p ∈ extractedPairs intent, ∃ t ∈ db.terrain,
    t.simulation_id = simulation_id ∧ t.containsPt (p.2, p.1) = true ∧
    t.passable = false

/- ===================================================================
   Memory-bank operation sequences (for the uniqueness invariant)
   =================================================================== -/

/-- A public mutating operation of the memory bank.  Each operation carries
the wall-clock value of its call. -/
inductive BankOp where
  | addOp (text : String) (scope : MemoryScope) (owner_id group_id : Option String)
      (cycle : Int) (importance : ℚ) (tags : List String) (now : Nat)
  | extendOp (texts : List String) (scope : MemoryScope)
      (owner_id group_id : Option String) (cycle : Int) (importance : ℚ)
      (tags : List String) (now : Nat)
  | clearOp
  | setStateOp (st : BankState)

/-- Whether the operation is a `set_state` checkpoint restore. -/
def BankOp.isSetState : BankOp → Bool
  | .setStateOp _ => true
  | _ => false

/-- Apply one bank operation. -/
def applyBankOp (b : MemoryBank) : BankOp → MemoryBank
  | .addOp t s o g c i tg n => (b.add t s o g c i tg n).2
  | .extendOp ts s o g c i tg n => (b.extend ts s o g c i tg n).2
  | .clearOp => b.clear
  | .setStateOp st => b.set_state st

/-- Apply a sequence of bank operations, first first. -/
def applyBankOps (b : MemoryBank) : List BankOp → MemoryBank
  | [] => b
  | op :: ops => applyBankOps (applyBankOp b op) ops

/-- Two rows agree on the `(text, owner_id, scope)` triple. -/
def sameTriple (r s : MemoryRow) : Bool :=
  r.text == s.text && r.owner_id == s.owner_id && r.scope == s.scope

/-- No two rows of the list share the `(text, owner_id, scope)` triple. -/
def triplesUniqueB : List MemoryRow → Bool
  | [] => true
  | r :: rs => rs.all (fun s => !sameTriple r s) && triplesUniqueB rs

/-- The content-hash string a stored row corresponds to. -/
def rowHash (r : MemoryRow) : String :=
  r.text ++ ":" ++ r.owner_id ++ ":" ++ r.scope

/-- The internal consistency invariant of a bank: row triples are unique
and every stored row's content hash is in the duplicate-detection set. -/
def bankInv (b : MemoryBank) : Prop :=
  triplesUniqueB b.rows = true ∧ ∀ r ∈ b.rows, rowHash r ∈ b.stored_hashes

/- ===================================================================
   Concrete instances used by witnesses and counterexamples
   =================================================================== -/

/-- A trivial embedder (the embedding vector is irrelevant to the claims). -/
def zeroEmbed : String → List ℚ := fun _ => []

/-- A freshly initialized bank for a simulation id. -/
def freshBank (simulation_id : String) : MemoryBank :=
  { simulation_id := simulation_id, table_name := "memories", rows := [],
    stored_hashes := [], embed := zeroEmbed }

/-- Bank holding one PUBLIC row "weather stable" owned by agent A. -/
def c1Bank : MemoryBank :=
  ((freshBank "sim").add "weather stable" .PUBLIC (some "A") none 0 (mkRat 1 2) [] 0).2

/-- The requester of the scope-isolation scenario: agent B, no groups. -/
def c1Filter : ScopeFilter := { agent_id := "B", groups := [], include_public := true }

/-- The metadata of the stored PUBLIC row. -/
def c1Meta : MemoryMetadata :=
  { scope := .PUBLIC, owner_id := some "A", group_id := none, cycle := 0,
    importance := mkRat 1 2, tags := [] }

/-- A terrain polygon with sub-unit movement cost crossing every segment. -/
def c2Terrain : TerrainRow :=
  { id := "t1", simulation_id := "sim", name := "Gravel road",
    terrain_type := "road", containsPt := fun _ => false,
    intersectsSeg := fun _ _ => true, movement_cost := mkRat 1 2, passable := true }

/-- Database holding only the sub-unit-cost polygon. -/
def c2DB : StateDB := ⟨[], [], [], [c2Terrain]⟩

/-- The same database with the polygon removed. -/
def c2DBremoved : StateDB := ⟨[], [], [], []⟩

/-- A terrain polygon of cost 2 crossing every segment (amended-claim witness). -/
def c2wTerrain : TerrainRow :=
  { id := "t2", simulation_id := "sim", name := "Hills",
    terrain_type := "mountains", containsPt := fun _ => false,
    intersectsSeg := fun _ _ => true, movement_cost := 2, passable := true }

/-- Database holding only the cost-2 polygon. -/
def c2wDB : StateDB := ⟨[], [], [], [c2wTerrain]⟩

/-- A minimal world snapshot at cycle 3. -/
def c3WS : WorldState :=
  { simulation_id := "sim"
    environment :=
      { cycle := 3, time := "06:00", weather := "Clear", global_events := [],
        terrain_modifiers := [] }
    actors := [], assets := [], last_updated := 0, metadata := [] }

/-- The same snapshot with a different weather (re-save at the same cycle). -/
def c3WS2 : WorldState :=
  { c3WS with environment := { c3WS.environment with weather := "Rain" } }

/-- The operation sequence breaking triple uniqueness: checkpoint the empty
bank, add a row, restore the checkpoint, add the same row again. -/
def c5Ops : List BankOp :=
  [.addOp "met the king" .PRIVATE (some "A") none 0 (mkRat 1 2) [] 0,
   .setStateOp ((freshBank "sim").get_state),
   .addOp "met the king" .PRIVATE (some "A") none 0 (mkRat 1 2) [] 1]

/-- Two tick contexts without an attached archon. -/
def c6Ctxs : List TickCtx :=
  [{ run_cycle := none, now := 10, timeStr := "06:00" },
   { run_cycle := none, now := 20, timeStr := "06:01" }]

/-- A tick context whose archon raises on every cycle. -/
def c7Ctx : TickCtx :=
  { run_cycle := some (fun _ => .error "LLM unavailable"), now := 10,
    timeStr := "06:00" }

/-- Bank holding one PRIVATE row (for the pandas-filter failure witness). -/
def c9Bank : MemoryBank :=
  ((freshBank "sim").add "my secret" .PRIVATE (some "A") none 0 (mkRat 1 2) [] 0).2

/-- The requester of the pandas-filter failure witness. -/
def c9Filter : ScopeFilter := { agent_id := "A", groups := [], include_public := true }

/-- A passable meadow polygon containing every point. -/
def c8Meadow : TerrainRow :=
  { id := "t1", simulation_id := "sim", name := "Meadow",
    terrain_type := "plains", containsPt := fun _ => true,
    intersectsSeg := fun _ _ => false, movement_cost := 1, passable := true }

/-- An impassable lake polygon containing every point. -/
def c8Lake : TerrainRow :=
  { id := "t2", simulation_id := "sim", name := "Lake",
    terrain_type := "water", containsPt := fun _ => true,
    intersectsSeg := fun _ _ => false, movement_cost := 1, passable := false }

/-- An overlapping pair of polygons: the passable meadow first, the
impassable lake second. -/
def c8DB : StateDB := ⟨[], [], [], [c8Meadow, c8Lake]⟩

/-- A database whose only polygon is impassable and contains every point. -/
def c8wDB : StateDB :=
  ⟨[], [], [],
   [{ id := "t3", simulation_id := "sim", name := "Swamp",
      terrain_type := "water", containsPt := fun _ => true,
      intersectsSeg := fun _ _ => false, movement_cost := 1, passable := false }]⟩

/-- An entity row of an actor stored at longitude 5, latitude 0. -/
def c10Row : EntityRow :=
  { id := "actor_1", simulation_id := "sim", entity_type := "actor",
    name := "Scout", description := "", geometry := some (5, 0),
    properties :=
      { role := some "Scout", resolution := some "macro", assets := some [],
        objectives := some [], attributes := some [], asset_type := none },
    status := "active" }

/-- A database with one environment row and the equator-latitude actor. -/
def c10DB : StateDB :=
  ⟨[],
   [{ id := "sim_env", simulation_id := "sim", cycle := 4, time_of_day := "06:00",
      weather := "Clear", global_events := [], terrain_modifiers := [] }],
   [c10Row], []⟩

/-- Snapshot rows are keyed by their own (simulation_id, cycle), the shape
`save_world_state` always writes. -/
def snapshotsWF (db : StateDB) : Prop :=
  ∀ r ∈ db.snapshots, r.id = snapshotKey r.simulation_id r.cycle

/-- A tick context's archon (when attached and not raising) preserves the
cycle stamp of the world state it returns; the repo's `Archon.run_cycle`
only appends to `global_events` and never touches `environment.cycle`. -/
def archonPreservesCycle (ctx : TickCtx) : Prop :=
  ∀ f ws out ws', ctx.run_cycle = some f → f ws = .ok out →
    out.world_state = some ws' → ws'.environment.cycle = ws.environment.cycle

/-- The world state the reconstruction fallback produces for `c10DB`. -/
def c10WS : WorldState :=
  { simulation_id := "sim"
    environment :=
      { cycle := 4, time := "06:00", weather := "Clear", global_events := [],
        terrain_modifiers := [] }
    actors := [("actor_1", actorFromRow c10Row)]
    assets := []
    last_updated := 7
    metadata := [] }

/- ===================================================================
   Theorems
   =================================================================== -/

theorem aux_pandas_filter_raises (simId : String) (df : List MemoryRow)
    (f : ScopeFilter) :
    apply_pandas_filter simId df f =
      .error (.attributeError "requesting_agent_id") := rfl

/-- Claim C9: every pandas-path retrieval (`retrieve_recent`, `scan`,
`get_all_memories_as_text`) with a constructible `ScopeFilter` on a bank
holding at least one row raises `AttributeError`, because
`_apply_pandas_filter` reads `requesting_agent_id` and `agent_groups`,
attributes `ScopeFilter` never defines. -/
theorem claim_C9 (b : MemoryBank) (sf : ScopeFilter) (k : Int)
    (sel : String → Bool) (hrows : b.rows ≠ []) (hk : 0 < k) :
    b.retrieve_recent k (some sf) = .error (.attributeError "requesting_agent_id") ∧
    b.scan sel (some sf) = .error (.attributeError "requesting_agent_id") ∧
    b.get_all_memories_as_text (some sf) =
      .error (.attributeError "requesting_agent_id") := by
  have hne : b.rows.isEmpty = false := by
    simp [List.isEmpty_iff]; exact hrows
  have hkle : ¬ k ≤ 0 := by omega
  refine ⟨?_, ?_, ?_⟩ <;>
    simp [MemoryBank.retrieve_recent, MemoryBank.scan,
      MemoryBank.get_all_memories_as_text, hne, hkle, aux_pandas_filter_raises,
      bind, Except.bind, pure, Except.pure]

/-- Witness for C9 at a one-row bank and a concrete filter. -/
theorem claim_C9_witness :
    c9Bank.retrieve_recent 5 (some c9Filter) =
      .error (.attributeError "requesting_agent_id") ∧
    c9Bank.scan (fun _ => true) (some c9Filter) =
      .error (.attributeError "requesting_agent_id") ∧
    c9Bank.get_all_memories_as_text (some c9Filter) =
      .error (.attributeError "requesting_agent_id") :=
  claim_C9 c9Bank c9Filter 5 (fun _ => true) (by decide) (by decide)

/-- Claim C4: for non-empty cleaned text with a fresh hash, the first `add`
returns true and appends exactly one row, the immediate identical re-add
returns false and leaves the bank unchanged, the memory count grows by
exactly one over the pair, and an empty-after-cleaning text is a no-op
returning false. -/
theorem claim_C4 (b : MemoryBank) (t : String) (s : MemoryScope)
    (o g : Option String) (cyc : Int) (imp : ℚ) (tags : List String) (n1 n2 : Nat)
    (hne : cleanText t ≠ "")
    (hnew : compute_hash (cleanText t) o s ∉ b.stored_hashes) :
    (b.add t s o g cyc imp tags n1).1 = true ∧
    (∃ row, (b.add t s o g cyc imp tags n1).2.rows = b.rows ++ [row]) ∧
    (b.add t s o g cyc imp tags n1).2.count = b.count + 1 ∧
    ((b.add t s o g cyc imp tags n1).2.add t s o g cyc imp tags n2).1 = false ∧
    ((b.add t s o g cyc imp tags n1).2.add t s o g cyc imp tags n2).2 =
      (b.add t s o g cyc imp tags n1).2 ∧
    ∀ t0, cleanText t0 = "" → b.add t0 s o g cyc imp tags n1 = (false, b) := by
  refine ⟨?_, ?_, ?_, ?_, ?_, ?_⟩
  · simp [MemoryBank.add, hne, hnew]
  · exact ⟨_, by simp [MemoryBank.add, hne, hnew]; rfl⟩
  · simp [MemoryBank.add, MemoryBank.count, hne, hnew]
  · simp [MemoryBank.add, hne, hnew]
  · simp [MemoryBank.add, hne, hnew]
  · intro t0 h0
    simp [MemoryBank.add, h0]

/-- Witness for C4 on a fresh bank and the text "hello world". -/
theorem claim_C4_witness :
    ((freshBank "sim").add "hello world" .PRIVATE (some "A") none 0 1 [] 0).1 = true ∧
    (∃ row, ((freshBank "sim").add "hello world" .PRIVATE (some "A") none 0 1 [] 0).2.rows =
      (freshBank "sim").rows ++ [row]) ∧
    ((freshBank "sim").add "hello world" .PRIVATE (some "A") none 0 1 [] 0).2.count =
      (freshBank "sim").count + 1 ∧
    (((freshBank "sim").add "hello world" .PRIVATE (some "A") none 0 1 [] 0).2.add
      "hello world" .PRIVATE (some "A") none 0 1 [] 1).1 = false ∧
    (((freshBank "sim").add "hello world" .PRIVATE (some "A") none 0 1 [] 0).2.add
      "hello world" .PRIVATE (some "A") none 0 1 [] 1).2 =
      ((freshBank "sim").add "hello world" .PRIVATE (some "A") none 0 1 [] 0).2 ∧
    ∀ t0, cleanText t0 = "" →
      (freshBank "sim").add t0 .PRIVATE (some "A") none 0 1 [] 0 = (false, freshBank "sim") :=
  claim_C4 (freshBank "sim") "hello world" .PRIVATE (some "A") none 0 1 [] 0 1
    (by decide) (by decide)

theorem aux_actor_entities_snapshots (simId : String) :
    ∀ (l : List (String × Actor)) (db : StateDB),
      (save_actor_entities simId db l).snapshots = db.snapshots
  | [], _ => rfl
  | a :: l, db => by
    rw [save_actor_entities, List.foldl_cons]
    exact aux_actor_entities_snapshots simId l _

theorem aux_asset_entities_snapshots (simId : String) :
    ∀ (l : List (String × Asset)) (db : StateDB),
      (save_asset_entities simId db l).snapshots = db.snapshots
  | [], _ => rfl
  | a :: l, db => by
    rw [save_asset_entities, List.foldl_cons]
    exact aux_asset_entities_snapshots simId l _

theorem aux_save_snapshots (simId : String) (db : StateDB) (ws : WorldState) :
    (save_world_state simId db ws).snapshots =
      upsertById (fun r => r.id)
        { id := snapshotKey simId ws.environment.cycle, simulation_id := simId,
          cycle := ws.environment.cycle, state := ws } db.snapshots := by
  unfold save_world_state
  rw [aux_asset_entities_snapshots, aux_actor_entities_snapshots]

theorem aux_mem_upsert {α : Type} (getId : α → String) (new : α) (l : List α)
    (r : α) (hr : r ∈ upsertById getId new l) : r = new ∨ r ∈ l := by
  induction l with
  | nil => simpa [upsertById] using hr
  | cons x xs ih =>
    by_cases hx : getId x = getId new
    · simp [upsertById, hx] at hr
      rcases hr with h | h
      · exact .inl h
      · exact .inr (List.mem_cons_of_mem _ h)
    · simp [upsertById, hx] at hr
      rcases hr with h | h
      · exact .inr (h ▸ List.mem_cons_self _ _)
      · rcases ih h with h' | h'
        · exact .inl h'
        · exact .inr (List.mem_cons_of_mem _ h')

theorem aux_find_upsert (simId : String) (c : Int) (l : List SnapshotRow)
    (new : SnapshotRow)
    (hwf : ∀ r ∈ l, r.id = snapshotKey r.simulation_id r.cycle)
    (hid : new.id = snapshotKey simId c) (hsim : new.simulation_id = simId)
    (hcyc : new.cycle = c) :
    ((upsertById (fun r => r.id) new l).filter
      (fun r => r.simulation_id == simId && r.cycle == c)).head? = some new := by
  induction l with
  | nil => simp [upsertById, hsim, hcyc]
  | cons r rs ih =>
    by_cases hr : r.id = new.id
    · simp only [upsertById, hr, if_pos]
      simp [hsim, hcyc]
    · have hrwf := hwf r (List.mem_cons_self _ _)
      have hnm : ¬(r.simulation_id == simId && r.cycle == c) = true := by
        intro hmatch
        simp only [Bool.and_eq_true, beq_iff_eq] at hmatch
        exact hr (by rw [hrwf, hmatch.1, hmatch.2, hid])
      simp only [upsertById, hr, ite_false]
      rw [List.filter_cons_of_neg (by simpa using hnm)]
      exact ih (fun x hx => hwf x (List.mem_cons_of_mem _ hx))

theorem aux_upsert_mem_id {α : Type} (getId : α → String) (new : α) (l : List α) :
    ∃ a ∈ upsertById getId new l, getId a = getId new := by
  induction l with
  | nil => exact ⟨new, by simp [upsertById], rfl⟩
  | cons r rs ih =>
    by_cases hr : getId r = getId new
    · exact ⟨new, by simp [upsertById, hr], rfl⟩
    · rcases ih with ⟨a, ha, he⟩
      exact ⟨a, by simp [upsertById, hr]; exact .inr ha, he⟩

theorem aux_upsert_len_of_mem {α : Type} (getId : α → String) (new : α)
    (l : List α) (h : ∃ a ∈ l, getId a = getId new) :
    (upsertById getId new l).length = l.length := by
  induction l with
  | nil => simp at h
  | cons r rs ih =>
    by_cases hr : getId r = getId new
    · simp [upsertById, hr]
    · have : ∃ a ∈ rs, getId a = getId new := by
        rcases h with ⟨a, ha, he⟩
        rcases List.mem_cons.mp ha with h' | h'
        · exact absurd (h' ▸ he) hr
        · exact ⟨a, h', he⟩
      simp [upsertById, hr, ih this]

theorem aux_save_wf (simId : String) (db : StateDB) (ws : WorldState)
    (hwf : snapshotsWF db) : snapshotsWF (save_world_state simId db ws) := by
  intro r hr
  rw [aux_save_snapshots] at hr
  rcases aux_mem_upsert _ _ _ _ hr with h | h
  · subst h; exact rfl
  · exact hwf r h

/-- Claim C3: saving a snapshot and reading back its cycle returns the
snapshot itself (the stored state, so in particular equal modulo
`last_updated`), and re-saving the same (simulation, cycle) replaces the
stored row in place instead of adding a second one. -/
theorem claim_C3 (simId : String) (db : StateDB) (ws ws' : WorldState)
    (now : Nat) (hwf : snapshotsWF db)
    (hc : ws'.environment.cycle = ws.environment.cycle) :
    get_world_state simId (save_world_state simId db ws)
      (some ws.environment.cycle) now = some ws ∧
    (save_world_state simId (save_world_state simId db ws) ws').snapshots.length =
      (save_world_state simId db ws).snapshots.length ∧
    get_world_state simId (save_world_state simId (save_world_state simId db ws) ws')
      (some ws.environment.cycle) now = some ws' := by
  refine ⟨?_, ?_, ?_⟩
  · have hfind := aux_find_upsert simId ws.environment.cycle db.snapshots
      { id := snapshotKey simId ws.environment.cycle, simulation_id := simId,
        cycle := ws.environment.cycle, state := ws } hwf rfl rfl rfl
    simp [get_world_state, aux_save_snapshots, hfind]
  · rw [aux_save_snapshots simId (save_world_state simId db ws) ws',
      aux_save_snapshots simId db ws]
    apply aux_upsert_len_of_mem
    have hkey : snapshotKey simId ws'.environment.cycle
        = snapshotKey simId ws.environment.cycle := by rw [hc]
    rcases aux_upsert_mem_id (fun (r : SnapshotRow) => r.id)
      { id := snapshotKey simId ws.environment.cycle, simulation_id := simId,
        cycle := ws.environment.cycle, state := ws } db.snapshots with ⟨a, ha, he⟩
    exact ⟨a, ha, by simpa [hkey] using he⟩
  · have hfind := aux_find_upsert simId ws.environment.cycle
      (save_world_state simId db ws).snapshots
      { id := snapshotKey simId ws'.environment.cycle, simulation_id := simId,
        cycle := ws'.environment.cycle, state := ws' }
      (aux_save_wf simId db ws hwf) (by rw [hc]) rfl hc
    simp at hfind
    rw [aux_save_snapshots simId db ws] at hfind
    simp [get_world_state, aux_save_snapshots, hfind]

/-- Witness for C3: the cycle-3 snapshot on an empty store, re-saved with
changed weather. -/
theorem claim_C3_witness :
    get_world_state "sim" (save_world_state "sim" emptyStateDB c3WS)
      (some c3WS.environment.cycle) 5 = some c3WS ∧
    (save_world_state "sim" (save_world_state "sim" emptyStateDB c3WS) c3WS2).snapshots.length =
      (save_world_state "sim" emptyStateDB c3WS).snapshots.length ∧
    get_world_state "sim"
      (save_world_state "sim" (save_world_state "sim" emptyStateDB c3WS) c3WS2)
      (some c3WS.environment.cycle) 5 = some c3WS2 :=
  claim_C3 "sim" emptyStateDB c3WS c3WS2 5
    (fun r hr => absurd hr (List.not_mem_nil r)) rfl

/-- Claim C1 (code-bug evaluation): the stored PUBLIC row "weather stable"
owned by A is visible to requester B under the spec's rule and under
`ScopeFilter.can_access`, yet the WHERE filter of `build_lancedb_filter`
rejects every stored row (it compares against the uppercase literals
'PUBLIC'/'PRIVATE'/'SHARED_GROUP' while rows store the lowercase enum
values), so `retrieve_associative` returns nothing, and the pandas paths
(`retrieve_recent`, `scan`) raise AttributeError instead of filtering. -/
theorem claim_C1 :
    spec_visible "B" [] true .PUBLIC (some "A") none = true ∧
    c1Filter.can_access c1Meta = true ∧
    c1Bank.rows ≠ [] ∧
    c1Bank.rows.all (fun r => !(c1Filter.lancedb_filter_accepts r)) = true ∧
    c1Bank.retrieve_associative "weather" 5 (some c1Filter) c1Bank.rows = [] ∧
    c1Bank.retrieve_recent 5 (some c1Filter) =
      .error (.attributeError "requesting_agent_id") ∧
    c1Bank.scan (fun _ => true) (some c1Filter) =
      .error (.attributeError "requesting_agent_id") :=
  ⟨by decide, by decide, by decide, by decide, by rfl, by rfl, by rfl⟩

theorem aux_triplesUnique_append (l : List MemoryRow) (x : MemoryRow) :
    triplesUniqueB (l ++ [x]) = true ↔
      (triplesUniqueB l = true ∧ ∀ s ∈ l, sameTriple s x = false) := by
  induction l with
  | nil => simp [triplesUniqueB]
  | cons r rs ih =>
    simp [triplesUniqueB, ih]
    constructor
    · rintro ⟨⟨h1, h2⟩, h3, h4⟩
      exact ⟨⟨h1, h3⟩, by simpa using h2, h4⟩
    · rintro ⟨⟨h1, h3⟩, h2, h4⟩
      exact ⟨⟨h1, by simpa using h2⟩, h3, h4⟩

theorem aux_sameTriple_rowHash (r s : MemoryRow) (h : sameTriple r s = true) :
    rowHash r = rowHash s := by
  simp only [sameTriple, Bool.and_eq_true, beq_iff_eq] at h
  simp [rowHash, h.1.1, h.1.2, h.2]

theorem aux_add_bankInv (b : MemoryBank) (t : String) (s : MemoryScope)
    (o g : Option String) (cyc : Int) (imp : ℚ) (tags : List String) (n : Nat)
    (hb : bankInv b) : bankInv (b.add t s o g cyc imp tags n).2 := by
  by_cases h0 : cleanText t = ""
  · simpa [MemoryBank.add, h0] using hb
  by_cases h1 : compute_hash (cleanText t) o s ∈ b.stored_hashes
  · simpa [MemoryBank.add, h0, h1] using hb
  obtain ⟨hu, hcl⟩ := hb
  constructor
  · simp [MemoryBank.add, h0, h1]
    rw [aux_triplesUnique_append]
    refine ⟨hu, fun r hr => ?_⟩
    rw [← Bool.not_eq_true]
    intro hst'
    have hmem := hcl r hr
    rw [aux_sameTriple_rowHash _ _ hst'] at hmem
    exact h1 hmem
  · simp [MemoryBank.add, h0, h1]
    intro r hr
    rcases hr with h | h
    · exact .inl (hcl r h)
    · subst h
      exact .inr rfl

theorem aux_extend_step_bankInv (simId : String) (scope : MemoryScope)
    (o g : Option String) (cyc : Int) (imp : ℚ) (tags : List String) (n : Nat) :
    ∀ (texts : List String) (acc : Nat × MemoryBank), bankInv acc.2 →
      bankInv (texts.foldl
        (fun (acc : Nat × MemoryBank) t =>
          let r := acc.2.add t scope o g cyc imp tags n
          (if r.1 then acc.1 + 1 else acc.1, r.2)) acc).2
  | [], _, h => h
  | t :: ts, acc, h => by
    rw [List.foldl_cons]
    exact aux_extend_step_bankInv simId scope o g cyc imp tags n ts _
      (by exact aux_add_bankInv _ t scope o g cyc imp tags n h)

theorem aux_op_bankInv (b : MemoryBank) (op : BankOp)
    (hop : op.isSetState = false) (hb : bankInv b) :
    bankInv (applyBankOp b op) := by
  cases op with
  | addOp t s o g c i tg n => exact aux_add_bankInv b t s o g c i tg n hb
  | extendOp ts s o g c i tg n =>
    exact aux_extend_step_bankInv b.simulation_id s o g c i tg n ts (0, b) hb
  | clearOp =>
    exact ⟨rfl, fun r hr => absurd hr (List.not_mem_nil r)⟩
  | setStateOp st => simp [BankOp.isSetState] at hop

/-- Claim C5 (amended): starting from a bank whose rows have pairwise
distinct (text, owner_id, scope) triples covered by the stored hash set (in
particular a fresh bank), every sequence of `add`, `extend` and `clear`
operations preserves the uniqueness of the triple; `set_state` is excluded
because it restores only the hash set while leaving the table rows in
place. -/
theorem claim_C5_amended (ops : List BankOp) :
    ∀ (b : MemoryBank), bankInv b → (∀ op ∈ ops, op.isSetState = false) →
      triplesUniqueB (applyBankOps b ops).rows = true := by
  induction ops with
  | nil => exact fun b hb _ => hb.1
  | cons op ops ih =>
    intro b hb hops
    exact ih (applyBankOp b op)
      (aux_op_bankInv b op (hops op (List.mem_cons_self _ _)) hb)
      (fun o ho => hops o (List.mem_cons_of_mem _ ho))

/-- Claim C5 counterexample: checkpoint the empty bank, add a row, restore
the checkpoint with `set_state`, add the same row again: the table then
holds two rows with the same (text, owner_id, scope) triple, so the
uniqueness invariant is not preserved by every operation sequence. -/
theorem claim_C5_counterexample :
    triplesUniqueB (applyBankOps (freshBank "sim") c5Ops).rows = false := by decide

/-- Witness for the amended C5: two identical adds then a clear keep the
triples unique. -/
theorem claim_C5_amended_witness :
    triplesUniqueB (applyBankOps (freshBank "sim")
      [.addOp "met the king" .PRIVATE (some "A") none 0 1 [] 0,
       .addOp "met the king" .PRIVATE (some "A") none 0 1 [] 1,
       .clearOp]).rows = true :=
  claim_C5_amended _ (freshBank "sim") ⟨rfl, fun r hr => absurd hr (List.not_mem_nil r)⟩
    (by intro op hop; fin_cases hop <;> rfl)

theorem aux_foldlMax_init_le (l : List ℚ) :
    ∀ {x y : ℚ}, x ≤ y → l.foldl max x ≤ l.foldl max y := by
  induction l with
  | nil => exact fun h => h
  | cons c cs ih =>
    intro x y h
    simpa using ih (max_le_max h (le_refl c))

theorem aux_le_foldlMax (l : List ℚ) (x : ℚ) : x ≤ l.foldl max x := by
  induction l generalizing x with
  | nil => exact le_refl x
  | cons c cs ih =>
    calc x ≤ max x c := le_max_left x c
    _ ≤ cs.foldl max (max x c) := ih (max x c)
    _ = (c :: cs).foldl max x := by rw [List.foldl_cons]

theorem aux_foldlMax_sublist {l' l : List ℚ} (h : List.Sublist l' l) :
    ∀ x : ℚ, l'.foldl max x ≤ l.foldl max x := by
  induction h with
  | slnil => exact fun x => le_refl _
  | cons c _ ih =>
    intro x
    rw [List.foldl_cons]
    exact le_trans (ih x) (aux_foldlMax_init_le _ (le_max_left x c))
  | cons₂ c _ ih =>
    intro x
    rw [List.foldl_cons, List.foldl_cons]
    exact ih (max x c)

/-- Claim C2 counterexample: a single sub-unit-cost polygon crossing the
segment makes `calculate_path_cost` return 1/2, not max(1.0, 1/2) = 1, and
removing the polygon raises the result to 1. -/
theorem claim_C2_counterexample :
    calculate_path_cost "sim" c2DB (0, 0) (1, 1) = mkRat 1 2 ∧
    spec_path_cost "sim" c2DB (0, 0) (1, 1) = 1 ∧
    calculate_path_cost "sim" c2DBremoved (0, 0) (1, 1) = 1 :=
  ⟨by decide, by decide, by decide⟩

theorem aux_calc_eq_spec (simId : String) (db : StateDB) (a b : GeoPoint)
    (h : ∀ c ∈ segmentCosts simId db a b, 1 ≤ c) :
    calculate_path_cost simId db a b = spec_path_cost simId db a b := by
  unfold calculate_path_cost spec_path_cost
  rcases hc : segmentCosts simId db a b with _ | ⟨c, cs⟩
  · rfl
  · have h1 : 1 ≤ c := h c (by rw [hc]; exact List.mem_cons_self _ _)
    simp only [sqlMax, List.foldl_cons, max_eq_right h1]

theorem aux_segmentCosts_append (simId : String) (sn : List SnapshotRow)
    (ev : List EnvRow) (en : List EntityRow) (l1 l2 : List TerrainRow)
    (a b : GeoPoint) :
    segmentCosts simId ⟨sn, ev, en, l1 ++ l2⟩ a b =
      segmentCosts simId ⟨sn, ev, en, l1⟩ a b ++
        segmentCosts simId ⟨sn, ev, en, l2⟩ a b := by
  simp [segmentCosts, List.filter_append]

/-- Claim C2 (amended): `calculate_path_cost` returns the maximum
`movement_cost` over the intersected polygons (1.0 when none intersect);
when every stored movement cost is at least 1.0, this equals the spec's
max(1.0, c₁, …, cₖ) and removing any one polygon cannot increase the
result. -/
theorem claim_C2_amended (simId : String) (db : StateDB) (a b : GeoPoint)
    (h : ∀ t ∈ db.terrain, 1 ≤ t.movement_cost) :
    calculate_path_cost simId db a b = spec_path_cost simId db a b ∧
    ∀ l1 tr l2, db.terrain = l1 ++ tr :: l2 →
      calculate_path_cost simId ⟨db.snapshots, db.envRows, db.entities, l1 ++ l2⟩ a b ≤
        calculate_path_cost simId db a b := by
  have hseg : ∀ c ∈ segmentCosts simId db a b, 1 ≤ c := by
    intro c hc
    simp only [segmentCosts, List.mem_map, List.mem_filter] at hc
    rcases hc with ⟨t, ⟨ht, _⟩, rfl⟩
    exact h t ht
  refine ⟨aux_calc_eq_spec simId db a b hseg, ?_⟩
  intro l1 tr l2 hterr
  obtain ⟨sn, ev, en, terr⟩ := db
  simp only at hterr
  subst hterr
  have h' : ∀ t ∈ l1 ++ l2, 1 ≤ t.movement_cost := by
    intro t ht
    refine h t ?_
    rcases List.mem_append.mp ht with h1 | h2
    · exact List.mem_append_left _ h1
    · exact List.mem_append_right _ (List.mem_cons_of_mem _ h2)
  have hseg' : ∀ c ∈ segmentCosts simId ⟨sn, ev, en, l1 ++ l2⟩ a b, 1 ≤ c := by
    intro c hc
    simp only [segmentCosts, List.mem_map, List.mem_filter] at hc
    rcases hc with ⟨t, ⟨ht, _⟩, rfl⟩
    exact h' t ht
  rw [aux_calc_eq_spec simId _ a b hseg', aux_calc_eq_spec simId _ a b hseg]
  unfold spec_path_cost
  apply aux_foldlMax_sublist
  rw [aux_segmentCosts_append, aux_segmentCosts_append]
  refine List.Sublist.append (List.Sublist.refl _) ?_
  have : segmentCosts simId ⟨sn, ev, en, tr :: l2⟩ a b =
      segmentCosts simId ⟨sn, ev, en, [tr]⟩ a b ++
        segmentCosts simId ⟨sn, ev, en, l2⟩ a b := by
    simpa using aux_segmentCosts_append simId sn ev en [tr] l2 a b
  rw [this]
  exact List.sublist_append_right _ _

/-- Witness for the amended C2 at a cost-2 polygon. -/
theorem claim_C2_amended_witness :
    calculate_path_cost "sim" c2wDB (0, 0) (1, 1) =
      spec_path_cost "sim" c2wDB (0, 0) (1, 1) ∧
    ∀ l1 tr l2, c2wDB.terrain = l1 ++ tr :: l2 →
      calculate_path_cost "sim"
        ⟨c2wDB.snapshots, c2wDB.envRows, c2wDB.entities, l1 ++ l2⟩ (0, 0) (1, 1) ≤
        calculate_path_cost "sim" c2wDB (0, 0) (1, 1) :=
  claim_C2_amended "sim" c2wDB (0, 0) (1, 1)
    (by
      intro t ht
      have : t = c2wTerrain := List.mem_singleton.mp ht
      rw [this]
      decide)

theorem aux_checkCoords_false_iff (simId : String) (db : StateDB) :
    ∀ ms : List (List Char),
      (checkCoordMatches simId db ms = false ↔
        ∃ p ∈ ms.filterMap pairLatLon,
          (check_terrain_passability simId db p.2 p.1).passed = false)
  | [] => by simp [checkCoordMatches]
  | m :: ms => by
    cases hp : pairLatLon m with
    | none =>
      simp [checkCoordMatches, hp, aux_checkCoords_false_iff simId db ms]
    | some p =>
      obtain ⟨lat, lon⟩ := p
      by_cases hpass : (check_terrain_passability simId db lon lat).passed = true
      · simp [checkCoordMatches, hp, hpass, aux_checkCoords_false_iff simId db ms]
      · simp only [Bool.not_eq_true] at hpass
        simp [checkCoordMatches, hp, hpass]

/-- Claim C8 (amended): the spatial_movement constraint fails iff the
intent contains a movement verb and some coordinate pair extracted by the
regex names a point whose terrain lookup (the first stored polygon
containing it) is impassable; no verb, no extractable pair, or no terrain
at the point all pass. -/
theorem claim_C8_amended (simId : String) (db : StateDB) (intent : String) :
    check_spatial_movement simId db intent = false ↔
      (hasMovementKeyword intent = true ∧
       ∃ p ∈ extractedPairs intent,
         (check_terrain_passability simId db p.2 p.1).passed = false) := by
  unfold check_spatial_movement
  by_cases hmv : hasMovementKeyword intent
  · by_cases hemp : (findallPairs intent).isEmpty
    · have hnil : findallPairs intent = [] := by simpa using hemp
      simp [hmv, hemp, extractedPairs, hnil]
    · simp [hmv, hemp, extractedPairs, aux_checkCoords_false_iff]
  · simp [hmv]

/-- Claim C8 counterexample: with an overlapping passable-then-impassable
pair of polygons, the intent "move to 1, 2" names a point lying in an
impassable polygon, yet the constraint passes, because the terrain lookup
returns the first (passable) polygon; so the claim's iff, read over any
containing polygon, is false. -/
theorem claim_C8_counterexample :
    ¬ (check_spatial_movement "sim" c8DB "move to 1, 2" = false ↔
        spec_spatial_fails "sim" c8DB "move to 1, 2") := by
  intro h
  have hfail : spec_spatial_fails "sim" c8DB "move to 1, 2" := by
    refine ⟨by decide, (1, 2), by decide, c8Lake, ?_, rfl, rfl, rfl⟩
    exact List.Mem.tail _ (List.Mem.head _)
  have hfalse := h.mpr hfail
  have htrue : check_spatial_movement "sim" c8DB "move to 1, 2" = true := by decide
  rw [htrue] at hfalse
  cases hfalse

theorem aux_loadedStamped_cycle (e : Engine) (ctx : TickCtx) :
    (loadedStamped e ctx).environment.cycle = e.steps + 1 := by
  unfold loadedStamped
  cases get_world_state e.sim_id e.db none ctx.now <;> rfl

/-- Claim C7: when the archon's `run_cycle` raises, the tick still returns
status "Adjudicated" with summary "Adjudication error: <message>", persists
the loaded-and-stamped baseline unchanged (only `last_updated` refreshed),
and the cycle counter advances by one. -/
theorem claim_C7 (e : Engine) (ctx : TickCtx)
    (f : WorldState → Except String ArchonOutput) (msg : String)
    (hrc : ctx.run_cycle = some f)
    (hex : f (loadedStamped e ctx) = .error msg) :
    e.async_step ctx =
      ({ sim_id := e.sim_id, steps := e.steps + 1,
         db := save_world_state e.sim_id e.db
           { loadedStamped e ctx with last_updated := ctx.now } },
       { cycle := e.steps + 1, status := "Adjudicated",
         summary := "Adjudication error: " ++ msg }) ∧
    (loadedStamped e ctx).environment.cycle = e.steps + 1 := by
  constructor
  · simp only [Engine.async_step, finalSaved, adjudicated, hrc, hex]
  · exact aux_loadedStamped_cycle e ctx

/-- Witness for C7: a fresh engine whose archon always raises. -/
theorem claim_C7_witness :
    (Engine.init "sim" emptyStateDB).async_step c7Ctx =
      ({ sim_id := "sim", steps := (Engine.init "sim" emptyStateDB).steps + 1,
         db := save_world_state "sim" emptyStateDB
           { loadedStamped (Engine.init "sim" emptyStateDB) c7Ctx with
               last_updated := c7Ctx.now } },
       { cycle := (Engine.init "sim" emptyStateDB).steps + 1,
         status := "Adjudicated",
         summary := "Adjudication error: " ++ "LLM unavailable" }) ∧
    (loadedStamped (Engine.init "sim" emptyStateDB) c7Ctx).environment.cycle =
      (Engine.init "sim" emptyStateDB).steps + 1 :=
  claim_C7 (Engine.init "sim" emptyStateDB) c7Ctx
    (fun _ => .error "LLM unavailable") "LLM unavailable" rfl rfl

theorem aux_finalSaved_cycle (e : Engine) (ctx : TickCtx)
    (hctx : archonPreservesCycle ctx) :
    (finalSaved e ctx).environment.cycle = e.steps + 1 := by
  have hbase := aux_loadedStamped_cycle e ctx
  unfold finalSaved adjudicated
  cases hrc : ctx.run_cycle with
  | none => simpa using hbase
  | some f =>
    cases hrun : f (loadedStamped e ctx) with
    | error msg => simpa [hrun] using hbase
    | ok out =>
      cases hws : out.world_state with
      | none => simpa [hrun, hws] using hbase
      | some ws' =>
        have hcyc := hctx f (loadedStamped e ctx) out ws' hrc hrun hws
        simpa [hrun, hws, hcyc] using hbase

theorem aux_runTicks_cycles :
    ∀ (ctxs : List TickCtx) (e : Engine),
      (∀ ctx ∈ ctxs, archonPreservesCycle ctx) →
      (runTicks e ctxs).2 =
        (List.range ctxs.length).map (fun i : Nat => e.steps + 1 + (i : Int))
  | [], _, _ => rfl
  | ctx :: ctxs, e, h => by
    rw [runTicks]
    have h1 := aux_finalSaved_cycle e ctx (h ctx (List.mem_cons_self _ _))
    have h2 := aux_runTicks_cycles ctxs (e.async_step ctx).1
      (fun c hc => h c (List.mem_cons_of_mem _ hc))
    have hsteps : (e.async_step ctx).1.steps = e.steps + 1 := rfl
    simp only [h2, hsteps, h1, List.length_cons, List.range_succ_eq_map,
      List.map_cons, List.map_map]
    refine List.cons_eq_cons.mpr ⟨by push_cast; ring, ?_⟩
    apply List.map_congr_left
    intro i _
    simp only [Function.comp_apply]
    push_cast
    ring

/-- Claim C6: over any successful sequence of ticks, the persisted
snapshots' `environment.cycle` values are exactly the consecutive integers
starting at the engine-start cycle (the store's maximum environment cycle)
plus one, provided each attached archon preserves the cycle stamp. -/
theorem claim_C6 (sim : String) (db : StateDB) (ctxs : List TickCtx)
    (h : ∀ ctx ∈ ctxs, archonPreservesCycle ctx) :
    (runTicks (Engine.init sim db) ctxs).2 =
      (List.range ctxs.length).map
        (fun i : Nat => get_current_cycle sim db + 1 + (i : Int)) :=
  aux_runTicks_cycles ctxs (Engine.init sim db) h

/-- Witness for C6: two archon-less ticks on an empty store persist cycles
1 and 2. -/
theorem claim_C6_witness :
    (runTicks (Engine.init "sim" emptyStateDB) c6Ctxs).2 =
      (List.range c6Ctxs.length).map
        (fun i : Nat => get_current_cycle "sim" emptyStateDB + 1 + (i : Int)) :=
  claim_C6 "sim" emptyStateDB c6Ctxs (by
    intro ctx hc
    simp only [c6Ctxs, List.mem_cons, List.not_mem_nil, or_false] at hc
    rcases hc with h | h <;>
      · subst h
        intro f ws out ws' hrc hrun hws
        exact absurd hrc (by simp))

theorem aux_lookup_dictInsert_self {β : Type} (k : String) (v : β)
    (d : List (String × β)) : (dictInsert k v d).lookup k = some v := by
  induction d with
  | nil => simp [dictInsert]
  | cons p ps ih =>
    by_cases hp : p.1 = k
    · simp [dictInsert, hp]
    · have hkp : (k == p.1) = false := by simp [Ne.symm hp]
      simp [dictInsert, hp, List.lookup, hkp, ih]

theorem aux_lookup_dictInsert_other {β : Type} (k k' : String) (v : β)
    (d : List (String × β)) (h : k' ≠ k) :
    (dictInsert k' v d).lookup k = d.lookup k := by
  have hkk : (k == k') = false := by simp [Ne.symm h]
  induction d with
  | nil => simp [dictInsert, List.lookup, hkk]
  | cons p ps ih =>
    by_cases hp : p.1 = k'
    · simp [dictInsert, hp, List.lookup, hkk]
    · simp [dictInsert, hp, List.lookup, ih]

theorem aux_lookup_foldl_preserve {β : Type} (f : EntityRow → β) :
    ∀ (l : List EntityRow) (d : List (String × β)) (k : String),
      (∀ x ∈ l, x.id ≠ k) →
      ((l.foldl (fun d x => dictInsert x.id (f x) d) d).lookup k) = d.lookup k
  | [], _, _, _ => rfl
  | x :: xs, d, k, h => by
    rw [List.foldl_cons,
      aux_lookup_foldl_preserve f xs _ k (fun y hy => h y (List.mem_cons_of_mem _ hy)),
      aux_lookup_dictInsert_other _ _ _ _ (h x (List.mem_cons_self _ _))]

theorem aux_lookup_foldl_dictInsert {β : Type} (f : EntityRow → β) :
    ∀ (l : List EntityRow) (d : List (String × β)) (r : EntityRow),
      (l.map (fun x => x.id)).Nodup → r ∈ l →
      ((l.foldl (fun d x => dictInsert x.id (f x) d) d).lookup r.id) = some (f r)
  | [], _, r, _, hr => absurd hr (List.not_mem_nil r)
  | x :: xs, d, r, hnd, hr => by
    rw [List.map_cons, List.nodup_cons] at hnd
    rw [List.foldl_cons]
    rcases List.mem_cons.mp hr with h | h
    · subst h
      have hxs : ∀ y ∈ xs, y.id ≠ r.id := by
        intro y hy he
        exact hnd.1 (he ▸ List.mem_map_of_mem (fun x => x.id) hy)
      rw [aux_lookup_foldl_preserve f xs _ r.id hxs]
      exact aux_lookup_dictInsert_self _ _ _
    · exact aux_lookup_foldl_dictInsert f xs _ r hnd.2 h

/-- Claim C10: the reconstruction fallback drops the location of any actor
or asset whose stored point has latitude 0 or longitude 0 (the coordinates
are tested for truthiness, not presence): the reconstructed actor has
`location = none` and the reconstructed asset an empty location mapping,
even though the row was stored with geometry. -/
theorem claim_C10 (simId : String) (db : StateDB) (now : Nat) (r : EntityRow)
    (lon lat : ℚ) (ws : WorldState)
    (hids : (db.entities.map (fun x => x.id)).Nodup)
    (hmem : r ∈ db.entities) (hsim : r.simulation_id = simId)
    (hstat : r.status ≠ "deleted")
    (hgeom : r.geometry = some (lon, lat)) (hzero : lat = 0 ∨ lon = 0)
    (hws : reconstruct_world_state simId db now = some ws) :
    (r.entity_type = "actor" →
      ws.actors.lookup r.id = some (actorFromRow r) ∧
      (actorFromRow r).location = none) ∧
    (r.entity_type = "asset" →
      ws.assets.lookup r.id = some (assetFromRow r) ∧
      (assetFromRow r).location = []) := by
  have hloc_actor : (actorFromRow r).location = none := by
    rcases hzero with hz | hz <;>
      simp [actorFromRow, entityLonLat, hgeom, truthyOptQ, hz]
  have hloc_asset : (assetFromRow r).location = [] := by
    rcases hzero with hz | hz <;>
      simp [assetFromRow, entityLonLat, hgeom, truthyOptQ, hz]
  unfold reconstruct_world_state at hws
  cases henv : latestEnvRow simId db with
  | none => rw [henv] at hws; cases hws
  | some env =>
    rw [henv] at hws
    injection hws with hws'
    subst hws'
    constructor
    · intro htype
      refine ⟨?_, hloc_actor⟩
      apply aux_lookup_foldl_dictInsert
      · exact hids.sublist
          ((List.filter_sublist _).map (fun x : EntityRow => x.id))
      · exact List.mem_filter.mpr ⟨hmem, by simp [hsim, htype, hstat]⟩
    · intro htype
      refine ⟨?_, hloc_asset⟩
      apply aux_lookup_foldl_dictInsert
      · exact hids.sublist
          ((List.filter_sublist _).map (fun x : EntityRow => x.id))
      · exact List.mem_filter.mpr ⟨hmem, by simp [hsim, htype, hstat]⟩

/-- Witness for C10: an actor stored at longitude 5, latitude 0 loses its
location across reconstruction. -/
theorem claim_C10_witness :
    (c10Row.entity_type = "actor" →
      c10WS.actors.lookup c10Row.id = some (actorFromRow c10Row) ∧
      (actorFromRow c10Row).location = none) ∧
    (c10Row.entity_type = "asset" →
      c10WS.assets.lookup c10Row.id = some (assetFromRow c10Row) ∧
      (assetFromRow c10Row).location = []) :=
  claim_C10 "sim" c10DB 7 c10Row 5 0 c10WS (by decide) (by decide)
    rfl (by decide) rfl (Or.inl rfl) rfl
